import Mathlib

/-!
Shallow embedding of the Lumina Health API backend (src/main.py) together with
a spec-modelled document store adapter.  The code imports create_document,
get_documents and db from a database module that is not among the sources, so
the adapter operations are modelled from the spec, section 4.1; everything
else is translated directly from src/main.py and src/schemas.py.
-/

/-- Values exchanged over the HTTP surface and held in store documents.
The joid constructor stands for the store-native identity value (ObjectId),
which is not a JSON value and must never appear in a response body. -/
inductive JValue where
  | jnull
  | jbool (b : Bool)
  | jnum (n : Int)
  | jstr (s : String)
  | jarr (elems : List JValue)
  | jobj (fields : List (String × JValue))
  | joid (n : Nat)

/-- Documents are ordered field maps, modelling Python dicts (insertion
order preserved, keys unique in every dict the program builds). -/
abbrev Doc := List (String × JValue)

mutual
/-- Structural equality test for values, modelling Python equality on the
JSON fragment. -/
def JValue.beq : JValue → JValue → Bool
  | .jnull, .jnull => true
  | .jbool a, .jbool b => a == b
  | .jnum a, .jnum b => a == b
  | .jstr a, .jstr b => a == b
  | .joid a, .joid b => a == b
  | .jarr a, .jarr b => JValue.beqList a b
  | .jobj a, .jobj b => JValue.beqFields a b
  | _, _ => false

/-- Elementwise equality of value lists. -/
def JValue.beqList : List JValue → List JValue → Bool
  | [], [] => true
  | x :: xs, y :: ys => JValue.beq x y && JValue.beqList xs ys
  | _, _ => false

/-- Elementwise equality of field lists. -/
def JValue.beqFields : List (String × JValue) → List (String × JValue) → Bool
  | [], [] => true
  | (k1, v1) :: xs, (k2, v2) :: ys => k1 == k2 && JValue.beq v1 v2 && JValue.beqFields xs ys
  | _, _ => false
end

instance : BEq JValue := ⟨JValue.beq⟩

/-- Key lookup in a document, modelling Python dict access: the first
binding of the key wins (dicts never hold a key twice). -/
def jlookup : Doc → String → Option JValue
  | [], _ => none
  | (k, v) :: rest, key => if k == key then some v else jlookup rest key

/-- Key removal, modelling dict.pop(k): the binding of k is removed and
the order of the remaining bindings is preserved. -/
def dictPop (d : Doc) (k : String) : Doc :=
  d.filter (fun kv => kv.1 != k)

/-- Key assignment, modelling Python dict assignment d[k] = v: an existing
binding is updated in place, otherwise the new binding is appended. -/
def dictSet (d : Doc) (k : String) (v : JValue) : Doc :=
  if d.any (fun kv => kv.1 == k) then
    d.map (fun kv => if kv.1 == k then (k, v) else kv)
  else
    d ++ [(k, v)]

/-- Canonical string form of the store-assigned identifier (Python str on
an ObjectId yields its hex text; any injective rendering models it). -/
def oidStr (n : Nat) : String :=
  Nat.repr n

/-- Python str() applied to a document field value.  In the program it is
only ever applied to the store-native identity value. -/
def jvalStr : JValue → String
  | .joid n => oidStr n
  | .jstr s => s
  | .jnum n => Int.repr n
  | .jnull => "None"
  | .jbool b => if b then "True" else "False"
  | .jarr _ => "[...]"
  | .jobj _ => "{...}"

/-- Pydantic model CommunityPostIn from src/main.py lines 31-35:
title, content and author are required str fields; tags is
Optional[List[str]] with default [], so an omitted tags validates to the
empty list while an explicit null validates to none. -/
structure CommunityPostIn where
  title : String
  content : String
  author : String
  tags : Option (List String)

/-- Validation of a tags array element list: every element must be a JSON
string, as pydantic does not coerce other JSON types to str. -/
def asStringList : List JValue → Option (List String)
  | [] => some []
  | .jstr s :: rest =>
    match asStringList rest with
    | some ss => some (s :: ss)
    | none => none
  | _ => none

/-- Pydantic validation of a request body against CommunityPostIn: the body
must be a JSON object; title, content and author must be present JSON
strings (the empty string passes, no min_length is declared); tags may be
omitted (default []), null (None), or an array of strings.  Extra fields
are ignored, as pydantic ignores them by default. -/
def validateCommunityPostIn (body : JValue) : Except String CommunityPostIn :=
  match body with
  | .jobj flds =>
    match jlookup flds "title" with
    | none => .error "title: Field required"
    | some (.jstr t) =>
      match jlookup flds "content" with
      | none => .error "content: Field required"
      | some (.jstr c) =>
        match jlookup flds "author" with
        | none => .error "author: Field required"
        | some (.jstr a) =>
          match jlookup flds "tags" with
          | none => .ok ⟨t, c, a, some []⟩
          | some .jnull => .ok ⟨t, c, a, none⟩
          | some (.jarr xs) =>
            match asStringList xs with
            | some ts => .ok ⟨t, c, a, some ts⟩
            | none => .error "tags: Input should be a valid string"
          | some _ => .error "tags: Input should be a valid list"
        | some _ => .error "author: Input should be a valid string"
      | some _ => .error "content: Input should be a valid string"
    | some _ => .error "title: Input should be a valid string"
  | _ => .error "Input should be a valid dictionary"

/-- post.model_dump() for CommunityPostIn: the validated fields in
declaration order; a None tags dumps to null. -/
def CommunityPostIn.model_dump (p : CommunityPostIn) : Doc :=
  [("title", .jstr p.title),
   ("content", .jstr p.content),
   ("author", .jstr p.author),
   ("tags", match p.tags with
            | none => .jnull
            | some ts => .jarr (ts.map .jstr))]

/-- Modelled from the spec: state of the document store behind the missing
database module.  Collections map names to document lists in insertion
order; nextId is the next store-assigned identity; error, when set, makes
every store operation fail with a StorageError carrying that message
(store unreachable / insert rejected, spec section 4.1). -/
structure StoreState where
  collections : List (String × List Doc)
  nextId : Nat
  error : Option String

/-- Documents of a named collection (absent collections are empty). -/
def getCol (s : StoreState) (name : String) : List Doc :=
  match s.collections.lookup name with
  | some docs => docs
  | none => []

/-- Replaces the document list of a named collection. -/
def setCol (s : StoreState) (name : String) (docs : List Doc) : StoreState :=
  { s with collections := (name, docs) :: s.collections.filter (fun kv => kv.1 != name) }

/-- Modelled from the spec: create_document(collection_name, document) of
the missing database module, spec section 4.1.  Inserts the document into
the named collection with a fresh store-assigned identity field and
returns the identifier in canonical string form; fails with the
StorageError message when the store is unreachable.  Per spec section 4.2
the document is stored as provided, with no injected server-side fields
beyond the identity the store assigns. -/
def create_document (collection_name : String) (document : Doc) (s : StoreState) :
    Except String (String × StoreState) :=
  match s.error with
  | some msg => .error msg
  | none =>
    let stored := ("_id", JValue.joid s.nextId) :: document
    .ok (oidStr s.nextId,
         { setCol s collection_name (getCol s collection_name ++ [stored]) with
             nextId := s.nextId + 1 })

/-- Filter match: every filter binding must be present with an equal value
in the document; the empty filter matches every document. -/
def matchesFilter (filt : Doc) (d : Doc) : Bool :=
  filt.all (fun kv =>
    match jlookup d kv.1 with
    | some v => JValue.beq v kv.2
    | none => false)

/-- Modelled from the spec: get_documents(collection_name, filter, limit)
of the missing database module, spec section 4.1.  Returns up to limit
matching documents in stable store order, each including its native
identity field; fails with the StorageError message when the store is
unreachable. -/
def get_documents (collection_name : String) (filt : Doc) (limit : Nat) (s : StoreState) :
    Except String (List Doc) :=
  match s.error with
  | some msg => .error msg
  | none => .ok (((getCol s collection_name).filter (matchesFilter filt)).take limit)

/-- HTTP responses of the two community handlers: a 200 JSON body, a 422
validation error produced by FastAPI before the handler body runs, or the
500 HTTPException(status_code=500, detail=str(e)) raised in the handler. -/
inductive Response where
  | ok (body : JValue)
  | validationError (detail : String)
  | serverError (detail : String)

/-- HTTP status code of a response. -/
def Response.statusCode : Response → Nat
  | .ok _ => 200
  | .validationError _ => 422
  | .serverError _ => 500

/-- Identity conversion from src/main.py lines 164-166: if the document has
a native identity field then p["id"] = str(p.pop("_id")); documents
without one are passed through unchanged. -/
def convertId (p : Doc) : Doc :=
  match jlookup p "_id" with
  | some v => dictSet (dictPop p "_id") "id" (.jstr (jvalStr v))
  | none => p

/-- GET /api/community/posts handler from src/main.py lines 159-169: fetch
up to limit documents of the communitypost collection with the empty
filter, convert each native identity to a string id field, and return
them under posts; any exception from the store becomes a 500 with the
exception message as detail.  The handler never writes the store, so the
state is returned unchanged. -/
def get_community_posts (limit : Nat) (s : StoreState) : Response × StoreState :=
  match get_documents "communitypost" [] limit s with
  | .error e => (.serverError e, s)
  | .ok posts =>
    (.ok (.jobj [("posts", .jarr ((posts.map convertId).map .jobj))]), s)

/-- POST /api/community/posts handler from src/main.py lines 171-177:
FastAPI first validates the body against CommunityPostIn (a failure is a
422 and the handler body never runs); on success the handler stores
post.model_dump() in the communitypost collection and answers with the
new id and status created; any exception from the store becomes a 500
with the exception message as detail. -/
def create_community_post (body : JValue) (s : StoreState) : Response × StoreState :=
  match validateCommunityPostIn body with
  | .error e => (.validationError e, s)
  | .ok post =>
    match create_document "communitypost" post.model_dump s with
    | .error e => (.serverError e, s)
    | .ok (post_id, s1) =>
      (.ok (.jobj [("id", .jstr post_id), ("status", .jstr "created")]), s1)

/-- Keyword calorie table db_map from src/main.py lines 119-123, in Python
dict insertion order (each key is iterated exactly once). -/
def db_map : List (String × Nat) :=
  [("banana", 105), ("apple", 95), ("egg", 78), ("eggs", 156), ("bread", 80),
   ("rice", 200), ("salad", 120), ("chicken", 220), ("yogurt", 150),
   ("coffee", 5), ("latte", 190), ("orange", 62), ("oats", 150)]

/-- Python lowercase of a string (str.lower applied characterwise). -/
def strLower (s : String) : String :=
  String.mk (s.toList.map Char.toLower)

/-- Python substring containment needle in hay. -/
def strContains (hay needle : String) : Bool :=
  decide (needle.toList <:+: hay.toList)

/-- Result of the nutrition endpoint: estimated_calories, the hit items as
(item, calories) pairs in table order, and the confidence value. -/
structure NutritionResult where
  estimated_calories : Nat
  items : List (String × Nat)
  confidence : Rat

/-- POST /api/nutrition handler from src/main.py lines 116-132: lowercase
the text, walk db_map once in order, count every keyword that occurs in
the text (adding its calories and recording a hit), and report confidence
0.5 when there was any hit and 0.2 otherwise (exact rationals standing
for the Python float literals). -/
def nutrition_estimate (text : String) : NutritionResult :=
  let t := strLower text
  let hits := db_map.filter (fun kv => strContains t kv.1)
  { estimated_calories := (hits.map (fun kv => kv.2)).sum,
    items := hits,
    confidence := if hits.isEmpty then 1/5 else 1/2 }

/-- Initial store: no collections, first identity 0, store healthy. -/
def emptyStore : StoreState :=
  { collections := [], nextId := 0, error := none }

/-! Helper lemmas about document lookup and the dict operations. -/

/-- Lookup misses when no binding carries the key. -/
theorem jlookup_eq_none : ∀ (d : Doc) (k : String), (∀ kv ∈ d, kv.1 ≠ k) →
    jlookup d k = none
  | [], _, _ => rfl
  | (k1, v1) :: rest, k, h => by
    have h1 : k1 ≠ k := h (k1, v1) (by simp)
    simp only [jlookup]
    rw [if_neg (by simpa using h1)]
    exact jlookup_eq_none rest k (fun x hx => h x (by simp [hx]))

/-- A missed lookup means no binding carries the key. -/
theorem not_key_of_jlookup_eq_none : ∀ (d : Doc) (k : String), jlookup d k = none →
    ∀ kv ∈ d, kv.1 ≠ k
  | [], _, _, kv, hkv => by cases hkv
  | (k1, v1) :: rest, k, h, kv, hkv => by
    by_cases hk : k1 = k
    · subst hk
      simp [jlookup] at h
    · rcases List.mem_cons.mp hkv with rfl | hm
      · simpa using hk
      · have hr : jlookup rest k = none := by
          have h2 := h
          simp only [jlookup] at h2
          rwa [if_neg (by simpa using hk)] at h2
        exact not_key_of_jlookup_eq_none rest k hr kv hm

/-- Lookup passes over a prefix that misses the key. -/
theorem jlookup_append : ∀ (d1 d2 : Doc) (k : String), jlookup d1 k = none →
    jlookup (d1 ++ d2) k = jlookup d2 k
  | [], _, _, _ => rfl
  | (k1, v1) :: rest, d2, k, h => by
    by_cases hk : k1 = k
    · subst hk
      simp [jlookup] at h
    · have hr : jlookup rest k = none := by
        have h2 := h
        simp only [jlookup] at h2
        rwa [if_neg (by simpa using hk)] at h2
      show (if (k1 == k) = true then some v1 else jlookup (rest ++ d2) k) = jlookup d2 k
      rw [if_neg (by simpa using hk)]
      exact jlookup_append rest d2 k hr

/-- In the update branch of dictSet, the key resolves to the new value. -/
theorem jlookup_map_set : ∀ (d : Doc) (k : String) (v : JValue),
    d.any (fun kv => kv.1 == k) = true →
    jlookup (d.map (fun kv => if kv.1 == k then (k, v) else kv)) k = some v
  | [], _, _, h => by simp at h
  | (k1, v1) :: rest, k, v, h => by
    rw [List.map_cons]
    by_cases hk : k1 = k
    · subst hk
      rw [if_pos (by simp)]
      show (if (k1 == k1) = true then some v
            else jlookup (rest.map (fun kv => if kv.1 == k1 then (k1, v) else kv)) k1) = some v
      rw [if_pos (by simp)]
    · rw [if_neg (by simpa using hk)]
      have hr : rest.any (fun kv => kv.1 == k) = true := by
        simpa [List.any_cons, hk] using h
      show (if (k1 == k) = true then some v1
            else jlookup (rest.map (fun kv => if kv.1 == k then (k, v) else kv)) k) = some v
      rw [if_neg (by simpa using hk)]
      exact jlookup_map_set rest k v hr

/-- Assignment makes the key resolve to the assigned value. -/
theorem jlookup_dictSet (d : Doc) (k : String) (v : JValue) :
    jlookup (dictSet d k v) k = some v := by
  unfold dictSet
  by_cases hany : d.any (fun kv => kv.1 == k) = true
  · rw [if_pos hany]
    exact jlookup_map_set d k v hany
  · rw [if_neg hany]
    have hnone : jlookup d k = none := by
      apply jlookup_eq_none
      intro kv hkv hk
      exact hany (List.any_eq_true.mpr ⟨kv, hkv, by simpa using hk⟩)
    rw [jlookup_append d _ k hnone]
    simp [jlookup]

/-- Every binding after an assignment carries the assigned key or was
already present. -/
theorem mem_dictSet : ∀ (d : Doc) (k : String) (v : JValue), ∀ kv ∈ dictSet d k v,
    kv.1 = k ∨ kv ∈ d := by
  intro d k v kv hkv
  unfold dictSet at hkv
  by_cases hany : d.any (fun x => x.1 == k) = true
  · rw [if_pos hany] at hkv
    rcases List.mem_map.mp hkv with ⟨x, hx, hxe⟩
    by_cases hk : x.1 = k
    · left
      rw [if_pos (by simpa using hk)] at hxe
      simp [← hxe]
    · right
      rw [if_neg (by simpa using hk)] at hxe
      rwa [← hxe]
  · rw [if_neg hany] at hkv
    rcases List.mem_append.mp hkv with hx | hx
    · right; exact hx
    · left; simp at hx; simp [hx]

/-- Identity conversion never leaves a binding of the store-native
identity field name in the document. -/
theorem convertId_no_native_id (p : Doc) : ∀ kv ∈ convertId p, kv.1 ≠ "_id" := by
  intro kv hkv
  unfold convertId at hkv
  cases hl : jlookup p "_id" with
  | none =>
    rw [hl] at hkv
    exact not_key_of_jlookup_eq_none p "_id" hl kv hkv
  | some v =>
    rw [hl] at hkv
    rcases mem_dictSet _ _ _ kv hkv with hk | hk
    · simp [hk]
    · have := (List.mem_filter.mp hk).2
      simpa using this

/-- Identity conversion of a document with a native identity field yields
a string id field. -/
theorem convertId_has_id {p : Doc} {v : JValue} (h : jlookup p "_id" = some v) :
    jlookup (convertId p) "id" = some (.jstr (jvalStr v)) := by
  simp [convertId, h, jlookup_dictSet]

/-- The empty filter matches every document. -/
theorem matchesFilter_nil (d : Doc) : matchesFilter [] d = true := rfl

/-- Filtering with the empty filter keeps every document. -/
theorem filter_matchesFilter_nil (l : List Doc) : l.filter (matchesFilter []) = l :=
  List.filter_eq_self.mpr (fun _ _ => rfl)

/-- Reading back the collection just written. -/
theorem getCol_setCol (s : StoreState) (name : String) (docs : List Doc) :
    getCol (setCol s name docs) name = docs := by
  simp [getCol, setCol, List.lookup]

/-- Claim C4: for every store state with the store reachable and every
non-negative N, the list_posts handler answers with at most N posts, and
with limit 0 it answers with the empty posts list.  The adapter limit
behaviour is modelled from the spec, section 4.1. -/
theorem c4_limit_bound (s : StoreState) (N : Nat) (h : s.error = none) :
    ∃ ps : List Doc,
      get_community_posts N s = (.ok (.jobj [("posts", .jarr (ps.map .jobj))]), s) ∧
      ps.length ≤ N ∧ (N = 0 → ps = []) := by
  refine ⟨(((getCol s "communitypost").filter (matchesFilter [])).take N).map convertId,
    ?_, ?_, ?_⟩
  · simp [get_community_posts, get_documents, h]
  · simp [List.length_take]
  · intro hN
    subst hN
    simp

/-- Claim C4 witness: the bound evaluated at the empty store with limit 0. -/
theorem c4_limit_bound_witness :
    emptyStore.error = none ∧
    ∃ ps : List Doc,
      get_community_posts 0 emptyStore =
        (.ok (.jobj [("posts", .jarr (ps.map .jobj))]), emptyStore) ∧
      ps.length ≤ 0 ∧ (0 = 0 → ps = []) :=
  ⟨rfl, c4_limit_bound emptyStore 0 rfl⟩

/-- Claim C2: whatever documents the store holds, as long as each carries
the native identity field (the adapter contract, spec section 4.1), every
post in the list_posts response carries a string id field and no binding
of the native identity field name. -/
theorem c2_identity_invariant (s : StoreState) (limit : Nat) (h : s.error = none)
    (hid : ∀ d ∈ getCol s "communitypost", ∃ v, jlookup d "_id" = some v) :
    ∃ ps : List Doc,
      get_community_posts limit s = (.ok (.jobj [("posts", .jarr (ps.map .jobj))]), s) ∧
      ∀ p ∈ ps, (∃ idv : String, jlookup p "id" = some (.jstr idv)) ∧
        ∀ kv ∈ p, kv.1 ≠ "_id" := by
  refine ⟨(((getCol s "communitypost").filter (matchesFilter [])).take limit).map convertId,
    ?_, ?_⟩
  · simp [get_community_posts, get_documents, h]
  · intro p hp
    rcases List.mem_map.mp hp with ⟨d, hd, rfl⟩
    have hdmem : d ∈ getCol s "communitypost" :=
      (List.mem_filter.mp (List.mem_of_mem_take hd)).1
    rcases hid d hdmem with ⟨v, hv⟩
    exact ⟨⟨jvalStr v, convertId_has_id hv⟩, convertId_no_native_id d⟩

/-- Claim C2 witness: the invariant evaluated on a store holding one
document with a native identity field. -/
theorem c2_identity_invariant_witness :
    (StoreState.mk [("communitypost", [[("_id", JValue.joid 7), ("title", JValue.jstr "t")]])] 8 none).error = none ∧
    (∀ d ∈ getCol (StoreState.mk [("communitypost", [[("_id", JValue.joid 7), ("title", JValue.jstr "t")]])] 8 none) "communitypost",
      ∃ v, jlookup d "_id" = some v) ∧
    ∃ ps : List Doc,
      get_community_posts 5 (StoreState.mk [("communitypost", [[("_id", JValue.joid 7), ("title", JValue.jstr "t")]])] 8 none) =
        (.ok (.jobj [("posts", .jarr (ps.map .jobj))]),
         StoreState.mk [("communitypost", [[("_id", JValue.joid 7), ("title", JValue.jstr "t")]])] 8 none) ∧
      ∀ p ∈ ps, (∃ idv : String, jlookup p "id" = some (.jstr idv)) ∧
        ∀ kv ∈ p, kv.1 ≠ "_id" :=
  ⟨rfl,
   fun d hd => by
     simp only [getCol, List.lookup] at hd
     simp at hd
     exact ⟨JValue.joid 7, by rw [hd]; rfl⟩,
   c2_identity_invariant _ 5 rfl
     (fun d hd => by
       simp only [getCol, List.lookup] at hd
       simp at hd
       exact ⟨JValue.joid 7, by rw [hd]; rfl⟩)⟩

/-- Successful list_posts path: with the store reachable the handler
answers the converted, limited collection and leaves the state alone. -/
theorem get_community_posts_ok (s : StoreState) (limit : Nat) (h : s.error = none) :
    get_community_posts limit s =
      (.ok (.jobj [("posts",
          .jarr (((((getCol s "communitypost").filter (matchesFilter [])).take limit).map
            convertId).map .jobj))]), s) := by
  simp [get_community_posts, get_documents, h]

/-- Claim C3: for every reachable store and valid create body, the id
string answered by create_post equals the id field of the created post as
returned by a subsequent list_posts whose limit covers the collection
(the created post is the last listed one).  The identity assignment of
the adapter is modelled from the spec, section 4.1. -/
theorem c3_roundtrip_identity (s : StoreState) (body : JValue) (post : CommunityPostIn)
    (herr : s.error = none) (hval : validateCommunityPostIn body = .ok post) :
    ∃ pid s1,
      create_community_post body s =
        (.ok (.jobj [("id", .jstr pid), ("status", .jstr "created")]), s1) ∧
      ∀ limit, (getCol s1 "communitypost").length ≤ limit →
        ∃ ps : List Doc,
          get_community_posts limit s1 =
            (.ok (.jobj [("posts", .jarr (ps.map .jobj))]), s1) ∧
          ∃ p, ps.getLast? = some p ∧ jlookup p "id" = some (.jstr pid) := by
  refine ⟨oidStr s.nextId,
    { setCol s "communitypost" (getCol s "communitypost" ++
        [("_id", JValue.joid s.nextId) :: post.model_dump]) with nextId := s.nextId + 1 },
    ?_, ?_⟩
  · simp [create_community_post, hval, create_document, herr]
  · intro limit hlim
    have herr1 : ({ setCol s "communitypost" (getCol s "communitypost" ++
        [("_id", JValue.joid s.nextId) :: post.model_dump]) with
          nextId := s.nextId + 1 } : StoreState).error = none := herr
    have hcol : getCol { setCol s "communitypost" (getCol s "communitypost" ++
        [("_id", JValue.joid s.nextId) :: post.model_dump]) with
          nextId := s.nextId + 1 } "communitypost" =
        getCol s "communitypost" ++ [("_id", JValue.joid s.nextId) :: post.model_dump] := by
      simp [getCol, setCol, List.lookup]
    rw [hcol] at hlim
    refine ⟨(getCol s "communitypost" ++
      [("_id", JValue.joid s.nextId) :: post.model_dump]).map convertId, ?_, ?_⟩
    · rw [get_community_posts_ok _ limit herr1, hcol, filter_matchesFilter_nil,
        List.take_of_length_le hlim]
    · refine ⟨convertId (("_id", JValue.joid s.nextId) :: post.model_dump), ?_, ?_⟩
      · rw [List.map_append]
        simp
      · have hid : jlookup (("_id", JValue.joid s.nextId) :: post.model_dump) "_id" =
            some (JValue.joid s.nextId) := by simp [jlookup]
        rw [convertId_has_id hid]
        rfl

/-- Claim C3 witness: the round trip evaluated for the Hello body on the
empty store. -/
theorem c3_roundtrip_identity_witness :
    emptyStore.error = none ∧
    validateCommunityPostIn (.jobj [("title", .jstr "Hello"), ("content", .jstr "First post"),
      ("author", .jstr "alice")]) = .ok ⟨"Hello", "First post", "alice", some []⟩ ∧
    ∃ pid s1,
      create_community_post (.jobj [("title", .jstr "Hello"), ("content", .jstr "First post"),
          ("author", .jstr "alice")]) emptyStore =
        (.ok (.jobj [("id", .jstr pid), ("status", .jstr "created")]), s1) ∧
      ∀ limit, (getCol s1 "communitypost").length ≤ limit →
        ∃ ps : List Doc,
          get_community_posts limit s1 =
            (.ok (.jobj [("posts", .jarr (ps.map .jobj))]), s1) ∧
          ∃ p, ps.getLast? = some p ∧ jlookup p "id" = some (.jstr pid) :=
  ⟨rfl, rfl, c3_roundtrip_identity emptyStore _ _ rfl rfl⟩

/-- Claim C1: the concrete scenario evaluated on the code.  create_post of
the Hello body on the empty store answers created with id string 0, and
the subsequent list_posts with limit 1 returns exactly one post holding
id, title, content, author and tags - and no likes binding at all:
CommunityPostIn in src/main.py lines 31-35 has no likes field, although
the CommunityPost schema declared for the communitypost collection in
src/schemas.py carries likes with default 0, so the likes field claimed
for the response is absent. -/
theorem c1_scenario_likes_missing :
    (create_community_post (.jobj [("title", .jstr "Hello"), ("content", .jstr "First post"),
        ("author", .jstr "alice")]) emptyStore).1 =
      .ok (.jobj [("id", .jstr "0"), ("status", .jstr "created")]) ∧
    (get_community_posts 1
        (create_community_post (.jobj [("title", .jstr "Hello"), ("content", .jstr "First post"),
          ("author", .jstr "alice")]) emptyStore).2).1 =
      .ok (.jobj [("posts", .jarr [.jobj [("title", .jstr "Hello"),
        ("content", .jstr "First post"), ("author", .jstr "alice"),
        ("tags", .jarr []), ("id", .jstr "0")]])]) ∧
    jlookup [("title", JValue.jstr "Hello"), ("content", JValue.jstr "First post"),
      ("author", JValue.jstr "alice"), ("tags", JValue.jarr []), ("id", JValue.jstr "0")]
      "likes" = none :=
  ⟨rfl, rfl, rfl⟩

/-- Successful create_post path: with a valid body and a reachable store
the handler stores the dumped document under a fresh identity and answers
created with the identity string. -/
theorem create_community_post_ok (s : StoreState) (body : JValue) (post : CommunityPostIn)
    (herr : s.error = none) (hval : validateCommunityPostIn body = .ok post) :
    create_community_post body s =
      (.ok (.jobj [("id", .jstr (oidStr s.nextId)), ("status", .jstr "created")]),
       { setCol s "communitypost" (getCol s "communitypost" ++
           [("_id", JValue.joid s.nextId) :: post.model_dump]) with
             nextId := s.nextId + 1 }) := by
  simp [create_community_post, hval, create_document, herr]

/-- Claim C5 counterexample: the create body with empty title and empty
content passes validation, is answered created, and one document is
stored - the claimed rejection does not happen. -/
theorem c5_counterexample :
    validateCommunityPostIn (.jobj [("title", .jstr ""), ("content", .jstr ""),
      ("author", .jstr "a")]) = .ok ⟨"", "", "a", some []⟩ ∧
    (create_community_post (.jobj [("title", .jstr ""), ("content", .jstr ""),
        ("author", .jstr "a")]) emptyStore).1 =
      .ok (.jobj [("id", .jstr "0"), ("status", .jstr "created")]) ∧
    (getCol (create_community_post (.jobj [("title", .jstr ""), ("content", .jstr ""),
        ("author", .jstr "a")]) emptyStore).2 "communitypost").length = 1 :=
  ⟨rfl, rfl, rfl⟩

/-- Claim C5 amended: a create_post whose title or content is the empty
string passes schema validation, because title and content are only
required to be strings (no non-emptiness constraint is declared in
CommunityPostIn), and with the store reachable the post is stored. -/
theorem c5_empty_text_accepted (title content author : String) (s : StoreState)
    (h : s.error = none) :
    validateCommunityPostIn (.jobj [("title", .jstr title), ("content", .jstr content),
      ("author", .jstr author)]) = .ok ⟨title, content, author, some []⟩ ∧
    ∃ s1, create_community_post (.jobj [("title", .jstr title), ("content", .jstr content),
        ("author", .jstr author)]) s =
      (.ok (.jobj [("id", .jstr (oidStr s.nextId)), ("status", .jstr "created")]), s1) ∧
      getCol s1 "communitypost" =
        getCol s "communitypost" ++
          [("_id", JValue.joid s.nextId) ::
            (CommunityPostIn.mk title content author (some [])).model_dump] := by
  refine ⟨rfl, _, create_community_post_ok s _ _ h rfl, ?_⟩
  simp [getCol, setCol, List.lookup]

/-- Claim C5 amended witness: both empty strings, evaluated on the empty
store. -/
theorem c5_empty_text_accepted_witness :
    emptyStore.error = none ∧
    (validateCommunityPostIn (.jobj [("title", .jstr ""), ("content", .jstr ""),
      ("author", .jstr "bob")]) = .ok ⟨"", "", "bob", some []⟩ ∧
    ∃ s1, create_community_post (.jobj [("title", .jstr ""), ("content", .jstr ""),
        ("author", .jstr "bob")]) emptyStore =
      (.ok (.jobj [("id", .jstr (oidStr emptyStore.nextId)), ("status", .jstr "created")]), s1) ∧
      getCol s1 "communitypost" =
        getCol emptyStore "communitypost" ++
          [("_id", JValue.joid emptyStore.nextId) ::
            (CommunityPostIn.mk "" "" "bob" (some [])).model_dump]) :=
  ⟨rfl, c5_empty_text_accepted "" "" "bob" emptyStore rfl⟩

/-- Claim C6: a valid create body with tags omitted validates to the empty
tag list, the document handed to the store create operation carries tags
as the empty array, and the create succeeds, the stored document being
exactly the dumped one under the fresh identity. -/
theorem c6_omitted_tags_dump_empty (title content author : String) (s : StoreState)
    (h : s.error = none) :
    validateCommunityPostIn (.jobj [("title", .jstr title), ("content", .jstr content),
      ("author", .jstr author)]) = .ok ⟨title, content, author, some []⟩ ∧
    jlookup (CommunityPostIn.mk title content author (some [])).model_dump "tags" =
      some (.jarr []) ∧
    ∃ s1, create_community_post (.jobj [("title", .jstr title), ("content", .jstr content),
        ("author", .jstr author)]) s =
      (.ok (.jobj [("id", .jstr (oidStr s.nextId)), ("status", .jstr "created")]), s1) ∧
      (getCol s1 "communitypost").getLast? =
        some (("_id", JValue.joid s.nextId) ::
          (CommunityPostIn.mk title content author (some [])).model_dump) := by
  refine ⟨rfl, rfl, _, create_community_post_ok s _ _ h rfl, ?_⟩
  simp [getCol, setCol, List.lookup]

/-- Claim C6 witness: an omitted tags field evaluated on the empty store. -/
theorem c6_omitted_tags_dump_empty_witness :
    emptyStore.error = none ∧
    (validateCommunityPostIn (.jobj [("title", .jstr "t"), ("content", .jstr "c"),
      ("author", .jstr "a")]) = .ok ⟨"t", "c", "a", some []⟩ ∧
    jlookup (CommunityPostIn.mk "t" "c" "a" (some [])).model_dump "tags" =
      some (.jarr []) ∧
    ∃ s1, create_community_post (.jobj [("title", .jstr "t"), ("content", .jstr "c"),
        ("author", .jstr "a")]) emptyStore =
      (.ok (.jobj [("id", .jstr (oidStr emptyStore.nextId)), ("status", .jstr "created")]), s1) ∧
      (getCol s1 "communitypost").getLast? =
        some (("_id", JValue.joid emptyStore.nextId) ::
          (CommunityPostIn.mk "t" "c" "a" (some [])).model_dump)) :=
  ⟨rfl, c6_omitted_tags_dump_empty "t" "c" "a" emptyStore rfl⟩

/-- Validation fails whenever a required field is missing from the body,
whatever else the body holds. -/
theorem validate_error_of_missing (flds : List (String × JValue))
    (h : (∀ kv ∈ flds, kv.1 ≠ "title") ∨ (∀ kv ∈ flds, kv.1 ≠ "content") ∨
         (∀ kv ∈ flds, kv.1 ≠ "author")) :
    ∃ e, validateCommunityPostIn (.jobj flds) = .error e := by
  simp only [validateCommunityPostIn]
  rcases h with h | h | h
  · rw [jlookup_eq_none flds "title" h]
    exact ⟨_, rfl⟩
  · cases ht : jlookup flds "title" with
    | none => exact ⟨_, rfl⟩
    | some v =>
      cases v
      case jstr t =>
        rw [jlookup_eq_none flds "content" h]
        exact ⟨_, rfl⟩
      all_goals exact ⟨_, rfl⟩
  · cases ht : jlookup flds "title" with
    | none => exact ⟨_, rfl⟩
    | some v =>
      cases v
      case jstr t =>
        cases hc : jlookup flds "content" with
        | none => exact ⟨_, rfl⟩
        | some w =>
          cases w
          case jstr c =>
            rw [jlookup_eq_none flds "author" h]
            exact ⟨_, rfl⟩
          all_goals exact ⟨_, rfl⟩
      all_goals exact ⟨_, rfl⟩

/-- Claim C7: a create body missing title, content or author is rejected
with a validation error before the handler body runs: the response is the
422 validation error and the store state is returned untouched, so the
create operation of the store is never invoked. -/
theorem c7_missing_field_rejected (flds : List (String × JValue)) (s : StoreState)
    (h : (∀ kv ∈ flds, kv.1 ≠ "title") ∨ (∀ kv ∈ flds, kv.1 ≠ "content") ∨
         (∀ kv ∈ flds, kv.1 ≠ "author")) :
    ∃ e, validateCommunityPostIn (.jobj flds) = .error e ∧
      create_community_post (.jobj flds) s = (.validationError e, s) := by
  rcases validate_error_of_missing flds h with ⟨e, he⟩
  exact ⟨e, he, by simp [create_community_post, he]⟩

/-- Claim C7 witness: a body missing title, evaluated on a store holding
one document (which stays untouched). -/
theorem c7_missing_field_rejected_witness :
    ((∀ kv ∈ [("content", JValue.jstr "x"), ("author", JValue.jstr "y")], kv.1 ≠ "title") ∨
     (∀ kv ∈ [("content", JValue.jstr "x"), ("author", JValue.jstr "y")], kv.1 ≠ "content") ∨
     (∀ kv ∈ [("content", JValue.jstr "x"), ("author", JValue.jstr "y")], kv.1 ≠ "author")) ∧
    ∃ e, validateCommunityPostIn (.jobj [("content", JValue.jstr "x"),
        ("author", JValue.jstr "y")]) = .error e ∧
      create_community_post (.jobj [("content", JValue.jstr "x"), ("author", JValue.jstr "y")])
        (StoreState.mk [("communitypost", [[("_id", JValue.joid 0)]])] 1 none) =
      (.validationError e, StoreState.mk [("communitypost", [[("_id", JValue.joid 0)]])] 1 none) :=
  ⟨Or.inl (by simp),
   c7_missing_field_rejected _ _ (Or.inl (by simp))⟩

/-- Claim C8: when the store raises a StorageError, create_post and
list_posts each answer the 500 server error carrying the error message
and leave the state untouched, and the same calls against the healthy
store succeed.  The StorageError raising is modelled from the spec,
section 4.1. -/
theorem c8_storage_error_surfaced (s : StoreState) (msg : String) (body : JValue)
    (post : CommunityPostIn) (limit : Nat)
    (herr : s.error = some msg) (hval : validateCommunityPostIn body = .ok post) :
    create_community_post body s = (.serverError msg, s) ∧
    get_community_posts limit s = (.serverError msg, s) ∧
    Response.statusCode (.serverError msg) = 500 ∧
    (∃ s1, create_community_post body { s with error := none } =
      (.ok (.jobj [("id", .jstr (oidStr s.nextId)), ("status", .jstr "created")]), s1)) ∧
    (∃ ps : List Doc, get_community_posts limit { s with error := none } =
      (.ok (.jobj [("posts", .jarr (ps.map .jobj))]), { s with error := none })) := by
  refine ⟨?_, ?_, rfl, ?_, ?_⟩
  · simp [create_community_post, hval, create_document, herr]
  · simp [get_community_posts, get_documents, herr]
  · exact ⟨_, create_community_post_ok _ _ _ rfl hval⟩
  · exact ⟨_, get_community_posts_ok _ limit rfl⟩

/-- Claim C8 witness: a store failing with a connection message, then the
same calls after the error clears. -/
theorem c8_storage_error_surfaced_witness :
    (StoreState.mk [] 0 (some "connection refused")).error = some "connection refused" ∧
    validateCommunityPostIn (.jobj [("title", .jstr "t"), ("content", .jstr "c"),
      ("author", .jstr "a")]) = .ok ⟨"t", "c", "a", some []⟩ ∧
    (create_community_post (.jobj [("title", .jstr "t"), ("content", .jstr "c"),
        ("author", .jstr "a")]) (StoreState.mk [] 0 (some "connection refused")) =
      (.serverError "connection refused", StoreState.mk [] 0 (some "connection refused")) ∧
    get_community_posts 20 (StoreState.mk [] 0 (some "connection refused")) =
      (.serverError "connection refused", StoreState.mk [] 0 (some "connection refused")) ∧
    Response.statusCode (.serverError "connection refused") = 500 ∧
    (∃ s1, create_community_post (.jobj [("title", .jstr "t"), ("content", .jstr "c"),
        ("author", .jstr "a")]) { StoreState.mk [] 0 (some "connection refused") with error := none } =
      (.ok (.jobj [("id", .jstr (oidStr (StoreState.mk [] 0 (some "connection refused")).nextId)),
        ("status", .jstr "created")]), s1)) ∧
    (∃ ps : List Doc, get_community_posts 20
        { StoreState.mk [] 0 (some "connection refused") with error := none } =
      (.ok (.jobj [("posts", .jarr (ps.map .jobj))]),
       { StoreState.mk [] 0 (some "connection refused") with error := none }))) :=
  ⟨rfl, rfl, c8_storage_error_surfaced _ "connection refused" _ _ 20 rfl rfl⟩

/-- Claim C9: a create body with tags explicitly null passes validation
with tags None, the document handed to the store create operation carries
tags as null rather than a list, and the create succeeds with that
document stored. -/
theorem c9_null_tags_passthrough (title content author : String) (s : StoreState)
    (h : s.error = none) :
    validateCommunityPostIn (.jobj [("title", .jstr title), ("content", .jstr content),
      ("author", .jstr author), ("tags", .jnull)]) = .ok ⟨title, content, author, none⟩ ∧
    jlookup (CommunityPostIn.mk title content author none).model_dump "tags" =
      some .jnull ∧
    ∃ s1, create_community_post (.jobj [("title", .jstr title), ("content", .jstr content),
        ("author", .jstr author), ("tags", .jnull)]) s =
      (.ok (.jobj [("id", .jstr (oidStr s.nextId)), ("status", .jstr "created")]), s1) ∧
      (getCol s1 "communitypost").getLast? =
        some (("_id", JValue.joid s.nextId) ::
          (CommunityPostIn.mk title content author none).model_dump) := by
  refine ⟨rfl, rfl, _, create_community_post_ok s _ _ h rfl, ?_⟩
  simp [getCol, setCol, List.lookup]

/-- Claim C9 witness: an explicit null tags field evaluated on the empty
store. -/
theorem c9_null_tags_passthrough_witness :
    emptyStore.error = none ∧
    (validateCommunityPostIn (.jobj [("title", .jstr "t"), ("content", .jstr "c"),
      ("author", .jstr "a"), ("tags", .jnull)]) = .ok ⟨"t", "c", "a", none⟩ ∧
    jlookup (CommunityPostIn.mk "t" "c" "a" none).model_dump "tags" = some .jnull ∧
    ∃ s1, create_community_post (.jobj [("title", .jstr "t"), ("content", .jstr "c"),
        ("author", .jstr "a"), ("tags", .jnull)]) emptyStore =
      (.ok (.jobj [("id", .jstr (oidStr emptyStore.nextId)), ("status", .jstr "created")]), s1) ∧
      (getCol s1 "communitypost").getLast? =
        some (("_id", JValue.joid emptyStore.nextId) ::
          (CommunityPostIn.mk "t" "c" "a" none).model_dump)) :=
  ⟨rfl, c9_null_tags_passthrough "t" "c" "a" emptyStore rfl⟩

/-- Text containing the eggs keyword also contains the egg keyword. -/
theorem strContains_egg_of_eggs {t : String} (h : strContains t "eggs" = true) :
    strContains t "egg" = true := by
  unfold strContains at h ⊢
  rw [decide_eq_true_eq] at h ⊢
  exact (show "egg".toList <:+: "eggs".toList by decide).trans h

/-- Calorie bookkeeping of the keyword table: when a predicate accepts
both egg entries, the accepted calories total 234 plus the calories of
the other accepted entries. -/
theorem db_map_eggs_total (p : String × Nat → Bool)
    (hEgg : p ("egg", 78) = true) (hEggs : p ("eggs", 156) = true) :
    ((db_map.filter p).map (fun kv => kv.2)).sum =
      234 + (((db_map.filter p).filter
        (fun kv => kv.1 != "egg" && kv.1 != "eggs")).map (fun kv => kv.2)).sum := by
  have hsplit : db_map.filter p =
      [("banana", 105), ("apple", 95)].filter p ++
        ("egg", 78) :: ("eggs", 156) ::
          [("bread", 80), ("rice", 200), ("salad", 120), ("chicken", 220), ("yogurt", 150),
           ("coffee", 5), ("latte", 190), ("orange", 62), ("oats", 150)].filter p := by
    show ([("banana", 105), ("apple", 95)] ++ ("egg", 78) :: ("eggs", 156) ::
          [("bread", 80), ("rice", 200), ("salad", 120), ("chicken", 220), ("yogurt", 150),
           ("coffee", 5), ("latte", 190), ("orange", 62), ("oats", 150)]).filter p = _
    rw [List.filter_append, List.filter_cons_of_pos hEgg, List.filter_cons_of_pos hEggs]
  have hME : List.filter (fun kv : String × Nat => kv.1 != "egg" && kv.1 != "eggs")
      (("egg", 78) :: ("eggs", 156) ::
        [("bread", 80), ("rice", 200), ("salad", 120), ("chicken", 220), ("yogurt", 150),
         ("coffee", 5), ("latte", 190), ("orange", 62), ("oats", 150)].filter p) =
      List.filter (fun kv : String × Nat => kv.1 != "egg" && kv.1 != "eggs")
        ([("bread", 80), ("rice", 200), ("salad", 120), ("chicken", 220), ("yogurt", 150),
          ("coffee", 5), ("latte", 190), ("orange", 62), ("oats", 150)].filter p) := by
    rw [List.filter_cons_of_neg (by decide), List.filter_cons_of_neg (by decide)]
  rw [hsplit, List.filter_append, hME]
  have hqP : List.filter (fun kv => kv.1 != "egg" && kv.1 != "eggs")
      (List.filter p [("banana", 105), ("apple", 95)]) =
      List.filter p [("banana", 105), ("apple", 95)] := by
    apply List.filter_eq_self.mpr
    intro a ha
    have ham : a ∈ [("banana", 105), ("apple", 95)] := (List.mem_filter.mp ha).1
    fin_cases ham <;> decide
  have hqS : List.filter (fun kv => kv.1 != "egg" && kv.1 != "eggs")
      (List.filter p [("bread", 80), ("rice", 200), ("salad", 120), ("chicken", 220),
        ("yogurt", 150), ("coffee", 5), ("latte", 190), ("orange", 62), ("oats", 150)]) =
      List.filter p [("bread", 80), ("rice", 200), ("salad", 120), ("chicken", 220),
        ("yogurt", 150), ("coffee", 5), ("latte", 190), ("orange", 62), ("oats", 150)] := by
    apply List.filter_eq_self.mpr
    intro a ha
    have ham : a ∈ [("bread", 80), ("rice", 200), ("salad", 120), ("chicken", 220),
        ("yogurt", 150), ("coffee", 5), ("latte", 190), ("orange", 62), ("oats", 150)] :=
      (List.mem_filter.mp ha).1
    fin_cases ham <;> decide
  rw [hqP, hqS]
  simp [List.map_append, List.sum_append]
  omega

/-- Claim C10: for every input whose lowercased text contains the eggs
keyword, the nutrition estimate counts both the egg entry (78 calories)
and the eggs entry (156 calories): both appear among the items, the items
never repeat a keyword of the table, and the estimated calories are 234
plus the calories of the other hits. -/
theorem c10_eggs_double_count (text : String)
    (h : strContains (strLower text) "eggs" = true) :
    ("egg", 78) ∈ (nutrition_estimate text).items ∧
    ("eggs", 156) ∈ (nutrition_estimate text).items ∧
    ((nutrition_estimate text).items.map Prod.fst).Nodup ∧
    (nutrition_estimate text).estimated_calories =
      234 + (((nutrition_estimate text).items.filter
        (fun kv => kv.1 != "egg" && kv.1 != "eggs")).map (fun kv => kv.2)).sum := by
  have hEgg : strContains (strLower text) "egg" = true := strContains_egg_of_eggs h
  have hitems : (nutrition_estimate text).items =
      db_map.filter (fun kv => strContains (strLower text) kv.1) := rfl
  have htotal : (nutrition_estimate text).estimated_calories =
      ((db_map.filter (fun kv => strContains (strLower text) kv.1)).map
        (fun kv => kv.2)).sum := rfl
  refine ⟨?_, ?_, ?_, ?_⟩
  · rw [hitems]
    exact List.mem_filter.mpr ⟨by decide, hEgg⟩
  · rw [hitems]
    exact List.mem_filter.mpr ⟨by decide, h⟩
  · rw [hitems]
    exact List.Nodup.sublist
      (List.Sublist.map Prod.fst (List.filter_sublist _)) (by decide)
  · rw [hitems, htotal]
    exact db_map_eggs_total (fun kv => strContains (strLower text) kv.1) hEgg h

/-- Claim C10 witness: the double counting evaluated on a concrete text. -/
theorem c10_eggs_double_count_witness :
    strContains (strLower "2 Eggs and a banana") "eggs" = true ∧
    (("egg", 78) ∈ (nutrition_estimate "2 Eggs and a banana").items ∧
    ("eggs", 156) ∈ (nutrition_estimate "2 Eggs and a banana").items ∧
    ((nutrition_estimate "2 Eggs and a banana").items.map Prod.fst).Nodup ∧
    (nutrition_estimate "2 Eggs and a banana").estimated_calories =
      234 + (((nutrition_estimate "2 Eggs and a banana").items.filter
        (fun kv => kv.1 != "egg" && kv.1 != "eggs")).map (fun kv => kv.2)).sum) :=
  ⟨by decide, c10_eggs_double_count "2 Eggs and a banana" (by decide)⟩
